import Mathlib

/-!
Shallow embedding of the Pulse payment-authorization router (Go sources under
`router/`, `iso/`, `workflow/`) together with theorems settling the claims
C1-C10 of its specification.  Go strings are modelled as `List Char`
(ASCII), Go `time.Time` as a `Nat` timestamp in milliseconds, Go maps that the
code ranges over as association lists (one fixed traversal order), and
fallible Go functions as `Option`/`Except` values.
-/

/-- Go strings (ASCII byte strings) are modelled as lists of characters. -/
abbrev Str := List Char

/-! ## Region health tracker (`router/health.go`) -/

/-- `CircuitState` from `router/health.go`: the circuit-breaker state. -/
inductive CircuitState where
  | Closed
  | Open
  | HalfOpen
deriving Repr, DecidableEq

/-- `FailureThreshold` from `router/health.go`: consecutive failures needed to
open the circuit. -/
def FailureThreshold : Nat := 5

/-- `ResetTimeout` from `router/health.go` (30 s), in milliseconds. -/
def ResetTimeout : Nat := 30000

/-- `ErrorWindow` from `router/health.go` (60 s), in milliseconds. -/
def ErrorWindow : Nat := 60000

/-- `RegionHealth` from `router/health.go`.  The mutex is dropped: the model
is sequential, each operation takes the current time explicitly. -/
structure RegionHealth where
  State : CircuitState
  ConsecutiveFailures : Nat
  LastStateChange : Nat
  RecentErrors : List Nat
deriving Repr, DecidableEq

/-- `NewRegionHealth` from `router/health.go`: initial tracker state. -/
def NewRegionHealth (now : Nat) : RegionHealth :=
  { State := CircuitState.Closed
    ConsecutiveFailures := 0
    LastStateChange := now
    RecentErrors := [] }

/-- `RegionHealth.RecordSuccess` from `router/health.go`: reset the failure
count; when half-open, close the circuit. -/
def RegionHealth.RecordSuccess (rh : RegionHealth) (now : Nat) : RegionHealth :=
  let rh := { rh with ConsecutiveFailures := 0 }
  if rh.State = CircuitState.HalfOpen then
    { rh with State := CircuitState.Closed, LastStateChange := now }
  else
    rh

/-- `RegionHealth.RecordFailure` from `router/health.go`: increment the
failure count, append the error timestamp (pruning entries older than
`ErrorWindow`), and open the circuit only when the state is `Closed` and the
count has reached `FailureThreshold`. -/
def RegionHealth.RecordFailure (rh : RegionHealth) (now : Nat) : RegionHealth :=
  let cf := rh.ConsecutiveFailures + 1
  let errs := (rh.RecentErrors ++ [now]).filter (fun t => now - t ≤ ErrorWindow)
  if rh.State = CircuitState.Closed ∧ FailureThreshold ≤ cf then
    { State := CircuitState.Open
      ConsecutiveFailures := cf
      LastStateChange := now
      RecentErrors := errs }
  else
    { rh with ConsecutiveFailures := cf, RecentErrors := errs }

/-- `RegionHealth.IsHealthy` from `router/health.go`: when open and more than
`ResetTimeout` has elapsed since the last state change, move to half-open;
return whether the (possibly updated) state is `Closed` or `HalfOpen`,
together with the updated tracker. -/
def RegionHealth.IsHealthy (rh : RegionHealth) (now : Nat) : Bool × RegionHealth :=
  let rh :=
    if rh.State = CircuitState.Open ∧ ResetTimeout < now - rh.LastStateChange then
      { rh with State := CircuitState.HalfOpen, LastStateChange := now }
    else
      rh
  (decide (rh.State = CircuitState.Closed ∨ rh.State = CircuitState.HalfOpen), rh)

/-- An event applied to a region-health tracker, tagged with the current
time. -/
inductive HealthEvent where
  | recordSuccess (now : Nat)
  | recordFailure (now : Nat)
  | isHealthy (now : Nat)
deriving Repr, DecidableEq

/-- Apply one event to a tracker (the boolean result of `IsHealthy` is
discarded; only the state evolution matters here). -/
def stepHealth (rh : RegionHealth) : HealthEvent → RegionHealth
  | HealthEvent.recordSuccess now => rh.RecordSuccess now
  | HealthEvent.recordFailure now => rh.RecordFailure now
  | HealthEvent.isHealthy now => (rh.IsHealthy now).2

/-- Run a tracker through a sequence of events. -/
def runHealth (rh : RegionHealth) (evs : List HealthEvent) : RegionHealth :=
  evs.foldl stepHealth rh

/-! ## Internal request/response and translator (`router/router.go`) -/

/-- `proto.AuthRequest`: the internal request record. -/
structure AuthRequest where
  Mti : Str
  Pan : Str
  Amount : Str
  TransmissionTime : Str
  Stan : Str
  Region : Str
deriving Repr, DecidableEq

/-- `proto.AuthResponse`: the internal response record. -/
structure AuthResponse where
  Mti : Str
  Pan : Str
  Amount : Str
  TransmissionTime : Str
  Stan : Str
  ResponseCode : Str
  ProcessingTimeMs : Int
deriving Repr, DecidableEq

/-- An ISO8583 message restricted to the six fields of the router's message
spec (`router/router.go`, `NewRouter`): 0 (MTI), 2 (PAN), 4 (amount),
7 (transmission time), 11 (STAN), 39 (response code).  `none` means the field
is not set; `GetString` on an unset field is the error case. -/
structure IsoMsg where
  f0 : Option Str
  f2 : Option Str
  f4 : Option Str
  f7 : Option Str
  f11 : Option Str
  f39 : Option Str
deriving Repr, DecidableEq

/-- `Router.isoToAuthRequest` from `router/router.go`: extract fields
0, 2, 4, 7, 11; any missing field is a hard parse error; `Region` is left
empty. -/
def isoToAuthRequest (message : IsoMsg) : Option AuthRequest :=
  match message.f0, message.f2, message.f4, message.f7, message.f11 with
  | some mti, some pan, some amount, some transmissionTime, some stan =>
      some { Mti := mti, Pan := pan, Amount := amount,
             TransmissionTime := transmissionTime, Stan := stan, Region := [] }
  | _, _, _, _, _ => none

/-- `Router.authResponseToIso` from `router/router.go`: MTI from the
response, fields 2, 4, 7, 11 copied from the request message when present
there (skipped silently when absent), field 39 from the response code. -/
def authResponseToIso (response : AuthResponse) (requestMessage : IsoMsg) : IsoMsg :=
  { f0 := some response.Mti
    f2 := requestMessage.f2
    f4 := requestMessage.f4
    f7 := requestMessage.f7
    f11 := requestMessage.f11
    f39 := some response.ResponseCode }

/-- `Router.createTimeoutResponse` from `router/router.go`: reply MTI is the
first two characters of the request MTI followed by `"10"`, fields 2, 4, 7,
11 copied from the request when present, field 39 set to `"91"`.  (Go slices
`mti[:2]`, which would panic on an MTI shorter than two bytes; the codec
delivers fixed four-character MTIs.) -/
def createTimeoutResponse (requestMessage : IsoMsg) : Option IsoMsg :=
  match requestMessage.f0 with
  | none => none
  | some mti =>
      some { f0 := some (mti.take 2 ++ ['1', '0'])
             f2 := requestMessage.f2
             f4 := requestMessage.f4
             f7 := requestMessage.f7
             f11 := requestMessage.f11
             f39 := some ['9', '1'] }

/-! ## Workflow reply MTI (`workflow/workflows.go`) -/

/-- `getResponseMTI` from `workflow/workflows.go`: on a four-character MTI,
keep the first two characters, set the third to `'1'`, keep the fourth;
otherwise return the fixed default `"0110"`. -/
def getResponseMTI (requestMTI : Str) : Str :=
  if requestMTI.length ≠ 4 then
    ['0', '1', '1', '0']
  else
    requestMTI.take 2 ++ ['1'] ++ requestMTI.drop 3

/-! ## Region selector (`router/router.go`, `determineRegion`) -/

/-- `RegionConfig` from `router/router.go` (host and port are connection
details irrelevant to the routing logic modelled here). -/
structure RegionConfig where
  TimeoutMs : Nat
deriving Repr, DecidableEq

/-- `Config` from `router/router.go`.  The Go maps are modelled as
association lists; Go map iteration visits entries in an unspecified order,
the list fixes one such order. -/
structure Config where
  BinRoutes : List (Str × Str)
  DefaultRegion : Str
  Regions : List (Str × RegionConfig)
  FailoverMap : List (Str × Str)
deriving Repr, DecidableEq

/-- The numeric value of a digit string (most significant digit first). -/
def digitsToNat (s : Str) : Nat :=
  s.foldl (fun acc c => acc * 10 + (c.toNat - '0'.toNat)) 0

/-- The largest value of Go's 64-bit `int`, `2^63 - 1`. -/
def maxInt64 : Nat := 9223372036854775807

/-- Go `strconv.Atoi` on a 64-bit platform: an optional sign followed by at
least one ASCII digit, erroring on any other shape (`ErrSyntax`) and on
values outside `[-2^63, 2^63 - 1]` (`ErrRange`).  `determineRegion` treats
any error as a non-match (`continue`). -/
def goAtoi (s : Str) : Option Int :=
  match s with
  | [] => none
  | c :: rest =>
      if c = '+' then
        if rest ≠ [] ∧ rest.all Char.isDigit ∧ digitsToNat rest ≤ maxInt64 then
          some (digitsToNat rest : Int)
        else none
      else if c = '-' then
        if rest ≠ [] ∧ rest.all Char.isDigit ∧ digitsToNat rest ≤ maxInt64 + 1 then
          some (-(digitsToNat rest : Int))
        else none
      else
        if (c :: rest).all Char.isDigit ∧ digitsToNat (c :: rest) ≤ maxInt64 then
          some (digitsToNat (c :: rest) : Int)
        else none

/-- One iteration of the route-table loop in `determineRegion`
(`router/router.go`): a key without `'-'` matches when it is a prefix of the
BIN; a key with `'-'` is split on `'-'`, must give exactly two parts, the
parts and the first `len(lo)` characters of the BIN must parse as integers,
and the BIN value must lie in the inclusive range.  Any parse failure means
no match (`continue` in the source).  (Go slices `bin[:len(parts[0])]`,
which would panic when `len(parts[0]) > 6`; `List.take` truncates instead —
the claims are settled under well-formed route keys where both agree.) -/
def matchRouteEntry (bin binRange : Str) : Bool :=
  if binRange.contains '-' then
    match binRange.splitOn '-' with
    | [lo, hi] =>
        match goAtoi lo, goAtoi hi, goAtoi (bin.take lo.length) with
        | some s, some e, some b => decide (s ≤ b ∧ b ≤ e)
        | _, _, _ => false
    | _ => false
  else
    binRange.isPrefixOf bin

/-- `Router.determineRegion` from `router/router.go`: default region for a
PAN shorter than six characters, otherwise the region of the first matching
route-table entry, or the default region when none matches. -/
def determineRegion (cfg : Config) (pan : Str) : Str :=
  if pan.length < 6 then
    cfg.DefaultRegion
  else
    let bin := pan.take 6
    match cfg.BinRoutes.find? (fun e => matchRouteEntry bin e.1) with
    | some e => e.2
    | none => cfg.DefaultRegion

/-- The integer a digit string denotes, for stating the claimed route
semantics. -/
def intOfDigits (s : Str) : Int :=
  (digitsToNat s : Int)

/-- The route-entry match relation exactly as the claim states it: a prefix
key (no `'-'`) matches iff the BIN begins with the key; a range key `lo-hi`
with `w = len(lo)` matches iff `int(bin[0..w])` lies in the inclusive
interval `[int(lo), int(hi)]`. -/
def claimRouteMatch (bin binRange : Str) : Bool :=
  if binRange.contains '-' then
    match binRange.splitOn '-' with
    | [lo, hi] =>
        decide (intOfDigits lo ≤ intOfDigits (bin.take lo.length) ∧
                intOfDigits (bin.take lo.length) ≤ intOfDigits hi)
    | _ => false
  else
    binRange.isPrefixOf bin

/-- A well-formed route key: either a plain prefix (no `'-'`), or `lo-hi`
where both bounds are nonempty digit strings, the lower bound is at most six
digits wide (so the Go slice of the BIN cannot panic), and the upper bound's
value fits Go's 64-bit `int` (so `strconv.Atoi` does not return
`ErrRange`). -/
def wellFormedKey (binRange : Str) : Bool :=
  if binRange.contains '-' then
    match binRange.splitOn '-' with
    | [lo, hi] =>
        decide (lo ≠ []) && decide (hi ≠ []) && lo.all Char.isDigit &&
        hi.all Char.isDigit && decide (lo.length ≤ 6) &&
        decide (digitsToNat hi ≤ maxInt64)
    | _ => false
  else
    true

/-! ## Dispatcher (`router/router.go`, `HandleMessage`) -/

/-- Look up a key in an association list (Go map read `m[k]`). -/
def lookupAssoc {α : Type} (l : List (Str × α)) (k : Str) : Option α :=
  match l with
  | [] => none
  | (k', v) :: rest => if k' = k then some v else lookupAssoc rest k

/-- Replace the value stored under a key (Go map write through a pointer to
the stored `RegionHealth`). -/
def updateAssoc {α : Type} (l : List (Str × α)) (k : Str) (v : α) : List (Str × α) :=
  match l with
  | [] => []
  | (k', v') :: rest => if k' = k then (k', v) :: rest else (k', v') :: updateAssoc rest k v

/-- The router's mutable per-region health map (`Router.regionHealth`). -/
structure RouterState where
  regionHealth : List (Str × RegionHealth)
deriving Repr, DecidableEq

/-- The health check `ok && regionHealth.IsHealthy()` performed by
`HandleMessage` on a region: a region absent from the map counts as
unhealthy; `IsHealthy` may update the tracker (Open to HalfOpen), so the
updated state is returned too. -/
def regionIsHealthy (st : RouterState) (region : Str) (now : Nat) : Bool × RouterState :=
  match lookupAssoc st.regionHealth region with
  | some rh =>
      let p := rh.IsHealthy now
      (p.1, ⟨updateAssoc st.regionHealth region p.2⟩)
  | none => (false, st)

/-- The region-selection block of `HandleMessage` (`router/router.go`
lines 217-253): set the request's region to the primary from
`determineRegion`; when the primary is unhealthy and `FailoverMap` has a
healthy failover, switch target and request region to it; otherwise keep the
primary.  Returns the (possibly rewritten) request, the target region, and
the updated health map. -/
def routeRequest (cfg : Config) (st : RouterState) (now : Nat) (request : AuthRequest) :
    AuthRequest × Str × RouterState :=
  let primaryRegion := determineRegion cfg request.Pan
  let request := { request with Region := primaryRegion }
  let p := regionIsHealthy st primaryRegion now
  let primaryHealthy := p.1
  let st := p.2
  if primaryHealthy then
    (request, primaryRegion, st)
  else
    match lookupAssoc cfg.FailoverMap primaryRegion with
    | some failoverRegion =>
        let q := regionIsHealthy st failoverRegion now
        let failoverHealthy := q.1
        let st := q.2
        if failoverHealthy then
          ({ request with Region := failoverRegion }, failoverRegion, st)
        else
          (request, primaryRegion, st)
    | none => (request, primaryRegion, st)

/-- `health.RecordFailure()` guarded by map membership, as `HandleMessage`
performs it. -/
def recordRegionFailure (st : RouterState) (region : Str) (now : Nat) : RouterState :=
  match lookupAssoc st.regionHealth region with
  | some rh => ⟨updateAssoc st.regionHealth region (rh.RecordFailure now)⟩
  | none => st

/-- `health.RecordSuccess()` guarded by map membership, as `HandleMessage`
performs it. -/
def recordRegionSuccess (st : RouterState) (region : Str) (now : Nat) : RouterState :=
  match lookupAssoc st.regionHealth region with
  | some rh => ⟨updateAssoc st.regionHealth region (rh.RecordSuccess now)⟩
  | none => st

/-- The outcome of the gRPC call `client.ProcessAuth`: the deadline-exceeded
error is distinguished because `HandleMessage` branches on it. -/
inductive RpcError where
  | deadlineExceeded
  | other
deriving Repr, DecidableEq

/-- One `storage.SaveAuthorization(ctx, authRequest, targetRegion, approved)`
call spawned by `HandleMessage`. -/
structure SaveCall where
  request : AuthRequest
  region : Str
  approved : Bool
deriving Repr, DecidableEq

/-- The observable outcome of one `HandleMessage` call: the reply message
(`none` when the Go function returns an error instead), the
`RecordSuccess`/`RecordFailure` calls it made (region, success flag), and
the storage writes it spawned. -/
structure HandleResult where
  reply : Option IsoMsg
  healthEvents : List (Str × Bool)
  saves : List SaveCall
deriving Repr, DecidableEq

/-- `Router.HandleMessage` from `router/router.go`.  External effects are
parameters: `chaosFault` is the chaos-engine injection decision, `rpc` the
regional processor call, `elapsedMs` the measured round-trip time; `clients`
lists the regions with a configured RPC client.  Metrics and logging are
omitted.  A reply of `none` models the Go error return (parse failure, no
client, or a non-timeout RPC error). -/
def HandleMessage (cfg : Config) (clients : List Str) (st : RouterState) (now : Nat)
    (chaosFault : Bool) (rpc : AuthRequest → Except RpcError AuthResponse)
    (elapsedMs : Int) (message : IsoMsg) : HandleResult × RouterState :=
  if chaosFault then
    ({ reply := none, healthEvents := [], saves := [] }, st)
  else
    match isoToAuthRequest message with
    | none => ({ reply := none, healthEvents := [], saves := [] }, st)
    | some authRequest =>
        let rt := routeRequest cfg st now authRequest
        let authRequest := rt.1
        let targetRegion := rt.2.1
        let st := rt.2.2
        if clients.contains targetRegion then
          match rpc authRequest with
          | Except.error e =>
              let st := recordRegionFailure st targetRegion now
              if e = RpcError.deadlineExceeded then
                ({ reply := createTimeoutResponse message,
                   healthEvents := [(targetRegion, false)], saves := [] }, st)
              else
                ({ reply := none, healthEvents := [(targetRegion, false)], saves := [] }, st)
          | Except.ok response =>
              let st := recordRegionSuccess st targetRegion now
              let response := { response with ProcessingTimeMs := elapsedMs }
              let approved := decide (response.ResponseCode = ['0', '0'])
              ({ reply := some (authResponseToIso response message)
                 healthEvents := [(targetRegion, true)]
                 saves := [{ request := authRequest, region := targetRegion,
                             approved := approved }] }, st)
        else
          ({ reply := none, healthEvents := [], saves := [] }, st)

/-! ## Connection server (`iso/server.go`) -/

/-- The length prefix written by `processMessage` (`iso/server.go`):
`byte(len/256)` then `byte(len%256)` in front of the payload. -/
def packFrame (payload : List Nat) : List Nat :=
  (payload.length / 256) % 256 :: payload.length % 256 :: payload

/-- `Server.processMessage` from `iso/server.go`: unpack the payload, hand
the message to the handler, pack the reply and prepend the length prefix.
`none` models the Go error return (unpack failure, handler error, or pack
failure), on which the caller closes the connection.  The codec and handler
are parameters, as in the source (`s.spec` and the `MessageHandler`
interface). -/
def processMessage (unpack : List Nat → Option IsoMsg) (handler : IsoMsg → Option IsoMsg)
    (pack : IsoMsg → Option (List Nat)) (messageBytes : List Nat) : Option (List Nat) :=
  match unpack messageBytes with
  | none => none
  | some message =>
      match handler message with
      | none => none
      | some responseMessage =>
          match pack responseMessage with
          | none => none
          | some responseBytes => some (packFrame responseBytes)

/-- The frame-reading loop of `Server.handleConnection` (`iso/server.go`),
with explicit fuel for structural recursion (each iteration consumes at
least two bytes, so fuel equal to the stream length is always enough; see
`handleConnectionAux_fuel`): repeatedly read a two-byte big-endian length
and that many payload bytes, process the frame, and stop on the first
`processMessage` error (the Go code returns, closing the connection).
Returns the reply frames written in order, and whether the connection was
closed by a message-processing error (`true`) rather than by end of
stream. -/
def handleConnectionAux (unpack : List Nat → Option IsoMsg) (handler : IsoMsg → Option IsoMsg)
    (pack : IsoMsg → Option (List Nat)) : Nat → List Nat → List (List Nat) × Bool
  | _, [] => ([], false)
  | _, [_] => ([], false)
  | 0, _ :: _ :: _ => ([], false)
  | fuel + 1, b0 :: b1 :: rest =>
      let messageLength := b0 * 256 + b1
      if rest.length < messageLength then
        ([], false)
      else
        match processMessage unpack handler pack (rest.take messageLength) with
        | none => ([], true)
        | some out =>
            let r := handleConnectionAux unpack handler pack fuel (rest.drop messageLength)
            (out :: r.1, r.2)

/-- `Server.handleConnection` from `iso/server.go`, run over the finite byte
sequence delivered on one connection. -/
def handleConnection (unpack : List Nat → Option IsoMsg) (handler : IsoMsg → Option IsoMsg)
    (pack : IsoMsg → Option (List Nat)) (stream : List Nat) : List (List Nat) × Bool :=
  handleConnectionAux unpack handler pack stream.length stream

/-- Modelled from the spec: the frame codec (component C1) is the third-party
ISO8583 library, not part of this repository's sources.  Spec section 6 fixes
the envelope: ASCII fixed-width fields 0 (4), 2 (19), 4 (12), 7 (10), 11 (6)
and, on replies, 39 (2); a payload that does not yield all required fields is
a parse fault.  A 51-byte payload is the request envelope, a 53-byte payload
the reply envelope; anything else fails to parse. -/
def unpackEnvelope (bytes : List Nat) : Option IsoMsg :=
  let sliceField := fun (start width : Nat) =>
    ((bytes.drop start).take width).map (fun b => Char.ofNat b)
  if bytes.length = 51 ∨ bytes.length = 53 then
    some { f0 := some (sliceField 0 4)
           f2 := some (sliceField 4 19)
           f4 := some (sliceField 23 12)
           f7 := some (sliceField 35 10)
           f11 := some (sliceField 45 6)
           f39 := if bytes.length = 53 then some (sliceField 51 2) else none }
  else
    none

/-- Modelled from the spec: encoding of the section 6 envelope, the emit
direction of the frame codec (component C1, third-party library).  All of the
fields 0, 2, 4, 7, 11 must be present with their exact widths (with field 39
appended when present); otherwise packing fails. -/
def packEnvelope (message : IsoMsg) : Option (List Nat) :=
  match message.f0, message.f2, message.f4, message.f7, message.f11 with
  | some a, some b, some c, some d, some e =>
      if a.length = 4 ∧ b.length = 19 ∧ c.length = 12 ∧ d.length = 10 ∧ e.length = 6 then
        match message.f39 with
        | some f =>
            if f.length = 2 then
              some ((a ++ b ++ c ++ d ++ e ++ f).map Char.toNat)
            else
              none
        | none => some ((a ++ b ++ c ++ d ++ e).map Char.toNat)
      else
        none
  | _, _, _, _, _ => none

/-! ## Workflow (`workflow/workflows.go`) -/

/-- `TransactionOptions` as used by `workflow/workflows.go` (durations in
milliseconds). -/
structure TransactionOptions where
  EnableFraudCheck : Bool
  MaxRetries : Nat
  RetryIntervalMs : Nat
  FraudCheckTimeoutMs : Nat
deriving Repr, DecidableEq

/-- `PaymentWorkflow` from `workflow/workflows.go`. -/
structure PaymentWorkflow where
  defaultOptions : TransactionOptions
  getRegionFunc : Option (Str → Str)

/-- `NewPaymentWorkflow` from `workflow/workflows.go`: fraud checking
enabled, three retries, 500 ms retry interval, 2 s fraud-check timeout. -/
def NewPaymentWorkflow (getRegionFunc : Option (Str → Str)) : PaymentWorkflow :=
  { defaultOptions :=
      { EnableFraudCheck := true
        MaxRetries := 3
        RetryIntervalMs := 500
        FraudCheckTimeoutMs := 2000 }
    getRegionFunc := getRegionFunc }

/-- The result, after the activity retry policy, of the `CheckTransaction`
screen activity: passed, explicitly rejected, or failed with an error. -/
inductive FraudOutcome where
  | pass
  | reject
  | errored
deriving Repr, DecidableEq

/-- The observable outcome of one workflow execution: the response returned
to the caller, the region the dispatch activity was invoked with (`none`
when dispatch was never invoked), whether the `LogTransaction` audit
activity was invoked, and the search-attribute upserts in order. -/
structure WorkflowResult where
  response : AuthResponse
  dispatchedRegion : Option Str
  auditLogged : Bool
  attrs : List (Str × Str)
deriving Repr, DecidableEq

/-- Steps 2 and 3 of `PaymentWorkflow.Execute` (`workflow/workflows.go`):
invoke the `ProcessAuth` dispatch activity (its post-retry outcome is the
`dispatch` parameter); on failure synthesize a `"96"` decline with
reply-class MTI and log it; on success log the transaction and record the
final search attributes. -/
def executeDispatch (attrs : List (Str × Str)) (region : Str) (request : AuthRequest)
    (dispatch : Except Unit AuthResponse) : WorkflowResult :=
  match dispatch with
  | Except.error _ =>
      { response :=
          { Mti := getResponseMTI request.Mti
            Pan := request.Pan
            Amount := request.Amount
            TransmissionTime := request.TransmissionTime
            Stan := request.Stan
            ResponseCode := ['9', '6']
            ProcessingTimeMs := 0 }
        dispatchedRegion := some region
        auditLogged := true
        attrs := attrs }
  | Except.ok response =>
      let transactionStatus :=
        if response.ResponseCode = ['0', '0'] then "APPROVED".toList else "DECLINED".toList
      { response := response
        dispatchedRegion := some region
        auditLogged := true
        attrs := attrs ++ [("TransactionStatus".toList, transactionStatus),
                           ("ResponseCode".toList, response.ResponseCode)] }

/-- `PaymentWorkflow.Execute` from `workflow/workflows.go`.  The post-retry
outcomes of the screen and dispatch activities are parameters; search
attributes are accumulated in order.  (Go slices `request.Pan[:6]`, which
would panic on a PAN shorter than six bytes; the codec delivers fixed
19-character PANs.) -/
def PaymentWorkflow.Execute (w : PaymentWorkflow) (request : AuthRequest)
    (fraud : FraudOutcome) (dispatch : Except Unit AuthResponse) : WorkflowResult :=
  let options := w.defaultOptions
  let attrs := [("TransactionID".toList, request.Stan),
                ("CardBIN".toList, request.Pan.take 6),
                ("Amount".toList, request.Amount)]
  let region :=
    if request.Region ≠ [] then request.Region
    else
      match w.getRegionFunc with
      | some f => f request.Pan
      | none => "us-east".toList
  if options.EnableFraudCheck then
    match fraud with
    | FraudOutcome.errored =>
        executeDispatch (attrs ++ [("FraudCheckStatus".toList, "ERROR".toList)])
          region request dispatch
    | FraudOutcome.reject =>
        { response :=
            { Mti := getResponseMTI request.Mti
              Pan := request.Pan
              Amount := request.Amount
              TransmissionTime := request.TransmissionTime
              Stan := request.Stan
              ResponseCode := ['5', '9']
              ProcessingTimeMs := 0 }
          dispatchedRegion := none
          auditLogged := true
          attrs := attrs ++ [("FraudCheckStatus".toList, "REJECTED".toList)] }
    | FraudOutcome.pass =>
        executeDispatch (attrs ++ [("FraudCheckStatus".toList, "APPROVED".toList)])
          region request dispatch
  else
    executeDispatch attrs region request dispatch

/-! ## Concrete fixtures for closed evaluations -/

/-- A single-region configuration: every BIN starting with `'4'` routes to
`"us"`, which is also the default region. -/
def cfgUS : Config :=
  { BinRoutes := [("4".toList, "us".toList)]
    DefaultRegion := "us".toList
    Regions := [("us".toList, { TimeoutMs := 100 })]
    FailoverMap := [] }

/-- Initial health map for `cfgUS`: the `"us"` tracker fresh at time 0. -/
def stUS : RouterState := ⟨[("us".toList, NewRegionHealth 0)]⟩

/-- A well-formed inbound authorization request message (MTI `"0100"`, the
19-character PAN field space-padded). -/
def msgRequest : IsoMsg :=
  { f0 := some "0100".toList
    f2 := some "4111111111111111   ".toList
    f4 := some "000000005000".toList
    f7 := some "0614120000".toList
    f11 := some "000001".toList
    f39 := none }

/-- The same inbound message with request MTI `"0101"` (third character
`'0'`, fourth character `'1'`). -/
def msgMti0101 : IsoMsg :=
  { msgRequest with f0 := some "0101".toList }

/-- An RPC stub whose call always ends in deadline exceeded. -/
def rpcTimeout : AuthRequest → Except RpcError AuthResponse :=
  fun _ => Except.error RpcError.deadlineExceeded

/-- An RPC stub that echoes the request and approves it, as the bundled
issuer does for small amounts (`issuer/us_east.go`). -/
def rpcApprove : AuthRequest → Except RpcError AuthResponse :=
  fun request =>
    Except.ok { Mti := "0110".toList
                Pan := request.Pan
                Amount := request.Amount
                TransmissionTime := request.TransmissionTime
                Stan := request.Stan
                ResponseCode := "00".toList
                ProcessingTimeMs := 0 }

/-! ## Claim theorems -/

/-- C10: for every input string whose length is not exactly four, the
reply-MTI conversion `getResponseMTI` returns the fixed default `"0110"`
rather than failing or transforming the input. -/
theorem getResponseMTI_default (s : Str) (h : s.length ≠ 4) :
    getResponseMTI s = ['0', '1', '1', '0'] := by
  simp [getResponseMTI, h]

/-- Witness for `getResponseMTI_default` at the five-character input
`"01000"`. -/
theorem getResponseMTI_default_witness :
    getResponseMTI "01000".toList = ['0', '1', '1', '0'] :=
  getResponseMTI_default "01000".toList (by decide)

/-- C1 (code evaluated at the failing input): a tracker driven from the
initial state through five failures is `Open`; an `IsHealthy` probe after
more than `ResetTimeout` moves it to `HalfOpen`; but the next
`RecordFailure` leaves the state `HalfOpen` — `RecordFailure` transitions
to `Open` only from `Closed` (`router/health.go` line 90), so the
`HalfOpen` → `Open` row of the transition table never fires. -/
theorem recordFailure_in_halfOpen_stays_halfOpen :
    (runHealth (NewRegionHealth 0)
      [HealthEvent.recordFailure 1, HealthEvent.recordFailure 2, HealthEvent.recordFailure 3,
       HealthEvent.recordFailure 4, HealthEvent.recordFailure 5]).State = CircuitState.Open ∧
    (runHealth (NewRegionHealth 0)
      [HealthEvent.recordFailure 1, HealthEvent.recordFailure 2, HealthEvent.recordFailure 3,
       HealthEvent.recordFailure 4, HealthEvent.recordFailure 5,
       HealthEvent.isHealthy 40000]).State = CircuitState.HalfOpen ∧
    (runHealth (NewRegionHealth 0)
      [HealthEvent.recordFailure 1, HealthEvent.recordFailure 2, HealthEvent.recordFailure 3,
       HealthEvent.recordFailure 4, HealthEvent.recordFailure 5,
       HealthEvent.isHealthy 40000, HealthEvent.recordFailure 40001]).State =
      CircuitState.HalfOpen := by
  decide

/-- C2 (counterexample): for the inbound MTI `"0101"` (third character
`'0'`), the dispatcher's timeout decline carries outbound MTI `"0110"`,
not the claimed `"ab1d" = "0111"`: `createTimeoutResponse` overwrites the
fourth character with `'0'`. -/
theorem timeout_decline_mti_forces_fourth_char :
    (createTimeoutResponse msgMti0101).map IsoMsg.f0 = some (some "0110".toList) ∧
    (createTimeoutResponse msgMti0101).map IsoMsg.f0 ≠ some (some "0111".toList) := by
  decide

/-- C2 (amended): on a four-character inbound MTI `abcd`, the workflow
decline paths (`getResponseMTI`, used for the screen-reject and
dispatch-exhausted declines) produce `ab1d`; the dispatcher's timeout
decline produces `ab10`, forcing the fourth character to `'0'`; and the
processor-reply path copies the processor's response MTI verbatim. -/
theorem outbound_mti_by_path (a b c d : Char) (m : IsoMsg) (response : AuthResponse)
    (h : m.f0 = some [a, b, c, d]) :
    getResponseMTI [a, b, c, d] = [a, b, '1', d] ∧
    (∃ r, createTimeoutResponse m = some r ∧ r.f0 = some [a, b, '1', '0']) ∧
    (authResponseToIso response m).f0 = some response.Mti := by
  refine ⟨by simp [getResponseMTI], ?_, rfl⟩
  simp [createTimeoutResponse, h]

/-- Witness for `outbound_mti_by_path` at the concrete message with MTI
`"0101"`. -/
theorem outbound_mti_by_path_witness :
    getResponseMTI "0101".toList = "0111".toList ∧
    (∃ r, createTimeoutResponse msgMti0101 = some r ∧ r.f0 = some "0110".toList) := by
  have h := outbound_mti_by_path '0' '1' '0' '1' msgMti0101
    { Mti := "0110".toList, Pan := [], Amount := [], TransmissionTime := [],
      Stan := [], ResponseCode := "00".toList, ProcessingTimeMs := 0 }
    (by decide)
  exact ⟨h.1, h.2.1⟩

/-- C3 (code evaluated at the failing input): when the dispatch RPC ends in
deadline exceeded, `HandleMessage` returns a decline reply with field 39 =
`"91"` but spawns no storage write at all — the audit write exists only on
the success path (`router/router.go` lines 329-343), so no `AuditRecord` is
written for the timed-out stan. -/
theorem timeout_reply_91_but_no_audit_write :
    ((HandleMessage cfgUS ["us".toList] stUS 1000 false rpcTimeout 100 msgRequest).1.reply.map
        IsoMsg.f39 = some (some "91".toList)) ∧
    (HandleMessage cfgUS ["us".toList] stUS 1000 false rpcTimeout 100 msgRequest).1.saves = [] ∧
    (HandleMessage cfgUS ["us".toList] stUS 1000 false rpcApprove 100 msgRequest).1.saves ≠ [] := by
  decide

/-! ## Helper lemmas -/

/-- Acceptance by the translator determines every extracted field: an
accepted message has fields 0, 2, 4, 7, 11 set to the request's values. -/
theorem isoToAuthRequest_fields (m : IsoMsg) (request : AuthRequest)
    (h : isoToAuthRequest m = some request) :
    m.f0 = some request.Mti ∧ m.f2 = some request.Pan ∧ m.f4 = some request.Amount ∧
    m.f7 = some request.TransmissionTime ∧ m.f11 = some request.Stan := by
  unfold isoToAuthRequest at h
  split at h
  · next h0 h2 h4 h7 h11 =>
      cases h
      exact ⟨h0, h2, h4, h7, h11⟩
  · exact absurd h (by simp)

/-- Taking a prefix preserves an all-elements predicate. -/
theorem all_take {α : Type} (p : α → Bool) (l : List α) (n : Nat) (h : l.all p = true) :
    (l.take n).all p = true := by
  rw [List.all_eq_true] at h ⊢
  exact fun x hx => h x (List.take_subset n l hx)

/-- A digit character's decimal value is at most nine. -/
theorem digit_val_le (c : Char) (h : c.isDigit = true) : c.toNat - '0'.toNat ≤ 9 := by
  unfold Char.isDigit at h
  simp only [Bool.and_eq_true, decide_eq_true_eq] at h
  have hle : c.toNat ≤ 57 := UInt32.toNat_le_of_le (by decide) h.2
  have h0 : ('0').toNat = 48 := rfl
  omega

/-- The fold underlying `digitsToNat`, bounded by the number of digits. -/
theorem digitsToNat_foldl_lt (s : Str) (h : s.all Char.isDigit = true) :
    ∀ a : Nat, s.foldl (fun acc c => acc * 10 + (c.toNat - '0'.toNat)) a <
      (a + 1) * 10 ^ s.length := by
  induction s with
  | nil =>
      intro a
      simp
  | cons c rest ih =>
      intro a
      simp only [List.all_cons, Bool.and_eq_true] at h
      have hd := digit_val_le c h.1
      have hrec := ih h.2 (a * 10 + (c.toNat - '0'.toNat))
      simp only [List.foldl_cons, List.length_cons]
      have hmul : a * 10 + (c.toNat - '0'.toNat) + 1 ≤ (a + 1) * 10 := by omega
      calc rest.foldl (fun acc c => acc * 10 + (c.toNat - '0'.toNat))
              (a * 10 + (c.toNat - '0'.toNat)) <
            (a * 10 + (c.toNat - '0'.toNat) + 1) * 10 ^ rest.length := hrec
        _ ≤ ((a + 1) * 10) * 10 ^ rest.length := Nat.mul_le_mul_right _ hmul
        _ = (a + 1) * 10 ^ (rest.length + 1) := by ring

/-- The value of a digit string is below ten to its length. -/
theorem digitsToNat_lt (s : Str) (h : s.all Char.isDigit = true) :
    digitsToNat s < 10 ^ s.length := by
  simpa [digitsToNat] using digitsToNat_foldl_lt s h 0

/-- `goAtoi` on a nonempty all-digit string whose value fits a 64-bit `int`
returns that value. -/
theorem goAtoi_digits (s : Str) (h1 : s ≠ []) (h2 : s.all Char.isDigit = true)
    (h3 : digitsToNat s ≤ maxInt64) :
    goAtoi s = some (digitsToNat s : Int) := by
  match s, h1 with
  | c :: rest, _ =>
    have hc : c.isDigit = true := by
      simp only [List.all_cons, Bool.and_eq_true] at h2
      exact h2.1
    have hplus : ¬ c = '+' := by
      rintro rfl
      exact absurd hc (by decide)
    have hminus : ¬ c = '-' := by
      rintro rfl
      exact absurd hc (by decide)
    simp [goAtoi, hplus, hminus, h2, h3]

/-- `List.find?` only depends on the predicate through its values on the
list. -/
theorem find?_congrOn {α : Type} (l : List α) (p q : α → Bool) (h : ∀ x ∈ l, p x = q x) :
    l.find? p = l.find? q := by
  induction l with
  | nil => rfl
  | cons a t ih =>
      have ha := h a (List.mem_cons_self a t)
      cases hq : q a with
      | true =>
          rw [List.find?_cons_of_pos _ (ha.trans hq), List.find?_cons_of_pos _ hq]
      | false =>
          rw [List.find?_cons_of_neg _ (by simp [ha, hq]), List.find?_cons_of_neg _ (by simp [hq])]
          exact ih (fun x hx => h x (List.mem_cons_of_mem a hx))

/-- Under a well-formed route key and a six-digit BIN, the route-entry match
performed by `determineRegion` coincides with the match relation as the
specification states it. -/
theorem matchRouteEntry_eq_claim (bin key : Str) (hbin : bin.all Char.isDigit = true)
    (hlen : bin.length = 6) (hwf : wellFormedKey key = true) :
    matchRouteEntry bin key = claimRouteMatch bin key := by
  unfold wellFormedKey at hwf
  unfold matchRouteEntry claimRouteMatch
  by_cases hdash : key.contains '-' = true
  · simp only [hdash, if_true] at hwf ⊢
    match hsp : key.splitOn '-' with
    | [] => rfl
    | [_] => rfl
    | _ :: _ :: _ :: _ => rfl
    | [lo, hi] =>
        rw [hsp] at hwf
        simp only [Bool.and_eq_true, decide_eq_true_eq] at hwf
        obtain ⟨⟨⟨⟨⟨hlo, hhi⟩, hlod⟩, hhid⟩, hlow⟩, hhiv⟩ := hwf
        have htake : bin.take lo.length ≠ [] := by
          rw [Ne, List.take_eq_nil_iff]
          push_neg
          constructor
          · simpa [List.length_eq_zero] using hlo
          · intro hb
            rw [hb] at hlen
            exact absurd hlen (by decide)
        have hsix : (10 : Nat) ^ 6 ≤ maxInt64 := by decide
        have hlov : digitsToNat lo ≤ maxInt64 := by
          have hb := digitsToNat_lt lo hlod
          have hp : (10 : Nat) ^ lo.length ≤ 10 ^ 6 :=
            Nat.pow_le_pow_right (by omega) hlow
          omega
        have htv : digitsToNat (bin.take lo.length) ≤ maxInt64 := by
          have hb := digitsToNat_lt (bin.take lo.length) (all_take _ _ _ hbin)
          have hl6 : (bin.take lo.length).length ≤ 6 := by
            rw [List.length_take, hlen]
            omega
          have hp : (10 : Nat) ^ (bin.take lo.length).length ≤ 10 ^ 6 :=
            Nat.pow_le_pow_right (by omega) hl6
          omega
        show (match goAtoi lo, goAtoi hi, goAtoi (bin.take lo.length) with
              | some s, some e, some b => decide (s ≤ b ∧ b ≤ e)
              | _, _, _ => false) =
            decide (intOfDigits lo ≤ intOfDigits (bin.take lo.length) ∧
                    intOfDigits (bin.take lo.length) ≤ intOfDigits hi)
        rw [goAtoi_digits lo hlo hlod hlov, goAtoi_digits hi hhi hhid hhiv,
            goAtoi_digits (bin.take lo.length) htake (all_take _ _ _ hbin) htv]
        rfl
  · simp only [hdash, if_false, Bool.false_eq_true]

/-- C5: for every message accepted by the translator, both reply builders —
`authResponseToIso` on the processor-reply path (for any processor
response) and `createTimeoutResponse` on the synthesized timeout-decline
path — produce a reply whose fields 2, 4, 7 and 11 equal those of the
original message, copied from the original rather than from the response. -/
theorem reply_echoes_fields_2_4_7_11 (m : IsoMsg) (request : AuthRequest)
    (response : AuthResponse) (hacc : isoToAuthRequest m = some request) :
    ((authResponseToIso response m).f2 = m.f2 ∧ (authResponseToIso response m).f4 = m.f4 ∧
     (authResponseToIso response m).f7 = m.f7 ∧ (authResponseToIso response m).f11 = m.f11) ∧
    (∃ r, createTimeoutResponse m = some r ∧
      r.f2 = m.f2 ∧ r.f4 = m.f4 ∧ r.f7 = m.f7 ∧ r.f11 = m.f11) := by
  refine ⟨⟨rfl, rfl, rfl, rfl⟩, ?_⟩
  obtain ⟨h0, -, -, -, -⟩ := isoToAuthRequest_fields m request hacc
  simp [createTimeoutResponse, h0]

/-- Witness for `reply_echoes_fields_2_4_7_11` at the concrete accepted
message `msgRequest`. -/
theorem reply_echoes_fields_witness :
    (authResponseToIso
        { Mti := "0110".toList, Pan := [], Amount := [], TransmissionTime := [],
          Stan := [], ResponseCode := "00".toList, ProcessingTimeMs := 0 }
        msgRequest).f2 = msgRequest.f2 ∧
    ∃ r, createTimeoutResponse msgRequest = some r ∧ r.f11 = msgRequest.f11 := by
  have h := reply_echoes_fields_2_4_7_11 msgRequest
    { Mti := "0100".toList, Pan := "4111111111111111   ".toList,
      Amount := "000000005000".toList, TransmissionTime := "0614120000".toList,
      Stan := "000001".toList, Region := [] }
    { Mti := "0110".toList, Pan := [], Amount := [], TransmissionTime := [],
      Stan := [], ResponseCode := "00".toList, ProcessingTimeMs := 0 }
    (by decide)
  obtain ⟨⟨h2, -, -, -⟩, r, hr, -, -, -, h11⟩ := h
  exact ⟨h2, r, hr, h11⟩

/-- C6: region selection returns the default region for a PAN shorter than
six characters; otherwise, over a well-formed route table (range bounds
nonempty digit strings, `len(lo) ≤ 6` so the Go slice cannot panic, and
`int(hi)` within Go's 64-bit `int` so `strconv.Atoi` cannot return
`ErrRange`) and a numeric PAN, it returns the region of the first entry
matching the BIN under the claimed match relation (prefix keys match by
prefix; range keys `lo-hi` match when `int(bin[0..len(lo)])` lies in
`[int(lo), int(hi)]`), falling back to the default region; and the range
key `"400000-499999"` matches the BINs `400000` and `499999` and rejects
`500000`. -/
theorem determineRegion_spec (cfg : Config) (pan : Str)
    (hwf : ∀ e ∈ cfg.BinRoutes, wellFormedKey e.1 = true)
    (hdig : pan.all Char.isDigit = true) :
    (pan.length < 6 → determineRegion cfg pan = cfg.DefaultRegion) ∧
    (6 ≤ pan.length →
      determineRegion cfg pan =
        match cfg.BinRoutes.find? (fun e => claimRouteMatch (pan.take 6) e.1) with
        | some e => e.2
        | none => cfg.DefaultRegion) ∧
    matchRouteEntry "400000".toList "400000-499999".toList = true ∧
    matchRouteEntry "499999".toList "400000-499999".toList = true ∧
    matchRouteEntry "500000".toList "400000-499999".toList = false := by
  refine ⟨?_, ?_, by decide, by decide, by decide⟩
  · intro h
    simp [determineRegion, h]
  · intro h
    have h6 : ¬ pan.length < 6 := by omega
    have htlen : (pan.take 6).length = 6 := by
      simp [List.length_take]
      omega
    rw [determineRegion, if_neg h6]
    show (match cfg.BinRoutes.find? (fun e => matchRouteEntry (pan.take 6) e.1) with
          | some e => e.2
          | none => cfg.DefaultRegion) = _
    rw [find?_congrOn cfg.BinRoutes _ _
          (fun e he => matchRouteEntry_eq_claim (pan.take 6) e.1
            (all_take _ _ _ hdig) htlen (hwf e he))]

/-- A one-entry range route table used to witness `determineRegion_spec`. -/
def cfgRange : Config :=
  { BinRoutes := [("400000-499999".toList, "us".toList)]
    DefaultRegion := "dflt".toList
    Regions := []
    FailoverMap := [] }

/-- Witness for `determineRegion_spec`: a sixteen-digit PAN in the range
routes to `"us"`, and a four-character PAN falls back to the default. -/
theorem determineRegion_spec_witness :
    determineRegion cfgRange "4111111111111111".toList = "us".toList ∧
    determineRegion cfgRange "1234".toList = "dflt".toList := by
  have h1 := determineRegion_spec cfgRange "4111111111111111".toList (by decide) (by decide)
  have h2 := determineRegion_spec cfgRange "1234".toList (by decide) (by decide)
  exact ⟨(h1.2.1 (by decide)).trans (by decide), h2.1 (by decide)⟩

/-- C7: for an accepted message whose target region has a client, a
deadline-exceeded RPC makes `HandleMessage` record a failure on the target
and return the synthesized timeout decline (field 39 = `"91"`, fields 2, 4,
7, 11 echoed from the original message) instead of an error, while any
other RPC error records a failure and surfaces the error with no decline
synthesized. -/
theorem dispatch_rpc_error_policy (cfg : Config) (clients : List Str) (st : RouterState)
    (now : Nat) (rpc : AuthRequest → Except RpcError AuthResponse) (elapsedMs : Int)
    (m : IsoMsg) (request : AuthRequest)
    (hacc : isoToAuthRequest m = some request)
    (hclient : clients.contains (routeRequest cfg st now request).2.1 = true) :
    (rpc (routeRequest cfg st now request).1 = Except.error RpcError.deadlineExceeded →
      HandleMessage cfg clients st now false rpc elapsedMs m =
        ({ reply := createTimeoutResponse m
           healthEvents := [((routeRequest cfg st now request).2.1, false)]
           saves := [] },
         recordRegionFailure (routeRequest cfg st now request).2.2
           (routeRequest cfg st now request).2.1 now) ∧
      ∃ r, createTimeoutResponse m = some r ∧ r.f39 = some ['9', '1'] ∧
        r.f2 = m.f2 ∧ r.f4 = m.f4 ∧ r.f7 = m.f7 ∧ r.f11 = m.f11) ∧
    (rpc (routeRequest cfg st now request).1 = Except.error RpcError.other →
      HandleMessage cfg clients st now false rpc elapsedMs m =
        ({ reply := none
           healthEvents := [((routeRequest cfg st now request).2.1, false)]
           saves := [] },
         recordRegionFailure (routeRequest cfg st now request).2.2
           (routeRequest cfg st now request).2.1 now)) := by
  have hmem : (routeRequest cfg st now request).2.1 ∈ clients := by
    simpa using hclient
  constructor
  · intro hrpc
    constructor
    · simp [HandleMessage, hacc, hmem, hrpc]
    · obtain ⟨h0, -, -, -, -⟩ := isoToAuthRequest_fields m request hacc
      simp [createTimeoutResponse, h0]
  · intro hrpc
    simp [HandleMessage, hacc, hmem, hrpc]

/-- Witness for `dispatch_rpc_error_policy`: the concrete request through
`cfgUS` with an always-timing-out RPC yields a failure record on `"us"` and
a `"91"` decline. -/
theorem dispatch_rpc_error_policy_witness :
    (HandleMessage cfgUS ["us".toList] stUS 1000 false rpcTimeout 100 msgRequest).1.healthEvents =
      [("us".toList, false)] ∧
    ∃ r, createTimeoutResponse msgRequest = some r ∧ r.f39 = some ['9', '1'] := by
  have h := (dispatch_rpc_error_policy cfgUS ["us".toList] stUS 1000 rpcTimeout 100 msgRequest
    { Mti := "0100".toList, Pan := "4111111111111111   ".toList,
      Amount := "000000005000".toList, TransmissionTime := "0614120000".toList,
      Stan := "000001".toList, Region := [] }
    (by decide) (by decide)).1 (by rfl)
  obtain ⟨heq, r, hr, h39, -⟩ := h
  refine ⟨?_, r, hr, h39⟩
  rw [heq]
  decide

/-- C8: the dispatcher's target choice: a healthy primary is used as is; an
unhealthy primary with a configured healthy failover switches the target
and the request's region to the failover; in every other case (no failover
entry, or an unhealthy failover) the primary is used regardless; and the
dispatched request's region always equals the chosen target. -/
theorem target_region_selection (cfg : Config) (st : RouterState) (now : Nat)
    (request : AuthRequest) :
    ((regionIsHealthy st (determineRegion cfg request.Pan) now).1 = true →
      routeRequest cfg st now request =
        ({ request with Region := determineRegion cfg request.Pan },
         determineRegion cfg request.Pan,
         (regionIsHealthy st (determineRegion cfg request.Pan) now).2)) ∧
    ((regionIsHealthy st (determineRegion cfg request.Pan) now).1 = false →
      (lookupAssoc cfg.FailoverMap (determineRegion cfg request.Pan) = none →
        routeRequest cfg st now request =
          ({ request with Region := determineRegion cfg request.Pan },
           determineRegion cfg request.Pan,
           (regionIsHealthy st (determineRegion cfg request.Pan) now).2)) ∧
      (∀ fo, lookupAssoc cfg.FailoverMap (determineRegion cfg request.Pan) = some fo →
        ((regionIsHealthy (regionIsHealthy st (determineRegion cfg request.Pan) now).2
            fo now).1 = true →
          routeRequest cfg st now request =
            ({ request with Region := fo }, fo,
             (regionIsHealthy (regionIsHealthy st (determineRegion cfg request.Pan) now).2
               fo now).2)) ∧
        ((regionIsHealthy (regionIsHealthy st (determineRegion cfg request.Pan) now).2
            fo now).1 = false →
          routeRequest cfg st now request =
            ({ request with Region := determineRegion cfg request.Pan },
             determineRegion cfg request.Pan,
             (regionIsHealthy (regionIsHealthy st (determineRegion cfg request.Pan) now).2
               fo now).2)))) ∧
    (routeRequest cfg st now request).1.Region = (routeRequest cfg st now request).2.1 := by
  refine ⟨?_, ?_, ?_⟩
  · intro h1
    simp [routeRequest, h1]
  · intro h1
    constructor
    · intro h2
      simp [routeRequest, h1, h2]
    · intro fo hfo
      constructor
      · intro h3
        simp [routeRequest, h1, hfo, h3]
      · intro h3
        simp [routeRequest, h1, hfo, h3]
  · by_cases h1 : (regionIsHealthy st (determineRegion cfg request.Pan) now).1 = true
    · simp [routeRequest, h1]
    · rw [Bool.not_eq_true] at h1
      cases hfo : lookupAssoc cfg.FailoverMap (determineRegion cfg request.Pan) with
      | none => simp [routeRequest, h1, hfo]
      | some fo =>
          by_cases h3 : (regionIsHealthy
              (regionIsHealthy st (determineRegion cfg request.Pan) now).2 fo now).1 = true
          · simp [routeRequest, h1, hfo, h3]
          · rw [Bool.not_eq_true] at h3
            simp [routeRequest, h1, hfo, h3]

/-- A two-region configuration with `"us"` failing over to `"eu"`. -/
def cfgFailover : Config :=
  { BinRoutes := [("4".toList, "us".toList)]
    DefaultRegion := "us".toList
    Regions := [("us".toList, { TimeoutMs := 100 }), ("eu".toList, { TimeoutMs := 100 })]
    FailoverMap := [("us".toList, "eu".toList)] }

/-- Health map in which `"us"` is freshly `Open` (unhealthy) and `"eu"` is
`Closed` (healthy). -/
def stFailover : RouterState :=
  ⟨[("us".toList,
     { State := CircuitState.Open, ConsecutiveFailures := 5,
       LastStateChange := 900, RecentErrors := [] }),
    ("eu".toList, NewRegionHealth 0)]⟩

/-- A concrete internal request whose PAN routes to `"us"`. -/
def reqFailover : AuthRequest :=
  { Mti := "0100".toList
    Pan := "4111111111111111".toList
    Amount := "000000005000".toList
    TransmissionTime := "0614120000".toList
    Stan := "000001".toList
    Region := [] }

/-- Witness for `target_region_selection`: with `"us"` open and `"eu"`
healthy, the request fails over to `"eu"` and its region is rewritten. -/
theorem target_region_selection_witness :
    (routeRequest cfgFailover stFailover 1000 reqFailover).2.1 = "eu".toList ∧
    (routeRequest cfgFailover stFailover 1000 reqFailover).1.Region = "eu".toList := by
  have h := target_region_selection cfgFailover stFailover 1000 reqFailover
  have h2 := (((h.2.1 (by decide)).2 "eu".toList (by decide)).1 (by decide))
  exact ⟨by rw [h2], by rw [h2]⟩

/-- C9: with fraud checking enabled (and a PAN of at least six characters,
which the Go code requires to slice the card BIN without panicking): an
explicit screen reject makes the workflow return a `"59"` decline with
reply-class MTI, never invoke the dispatch activity, and still run the
audit step; a screen error tags the workflow with the
`FraudCheckStatus = ERROR` search attribute and proceeds to dispatch
(fail-open). -/
theorem workflow_screen_outcomes (w : PaymentWorkflow) (request : AuthRequest)
    (dispatch : Except Unit AuthResponse)
    (hfc : w.defaultOptions.EnableFraudCheck = true)
    (_hpan : 6 ≤ request.Pan.length) :
    ((w.Execute request FraudOutcome.reject dispatch).response.ResponseCode = ['5', '9'] ∧
     (w.Execute request FraudOutcome.reject dispatch).response.Mti =
       getResponseMTI request.Mti ∧
     (w.Execute request FraudOutcome.reject dispatch).dispatchedRegion = none ∧
     (w.Execute request FraudOutcome.reject dispatch).auditLogged = true) ∧
    (("FraudCheckStatus".toList, "ERROR".toList) ∈
       (w.Execute request FraudOutcome.errored dispatch).attrs ∧
     (w.Execute request FraudOutcome.errored dispatch).dispatchedRegion ≠ none ∧
     (w.Execute request FraudOutcome.errored dispatch).auditLogged = true) := by
  constructor
  · simp [PaymentWorkflow.Execute, hfc]
  · cases dispatch <;> simp [PaymentWorkflow.Execute, executeDispatch, hfc]

/-- Witness for `workflow_screen_outcomes` at the default workflow options
and a concrete request. -/
theorem workflow_screen_outcomes_witness :
    ((NewPaymentWorkflow none).Execute reqFailover FraudOutcome.reject
      (Except.error ())).response.ResponseCode = ['5', '9'] ∧
    ((NewPaymentWorkflow none).Execute reqFailover FraudOutcome.errored
      (Except.error ())).dispatchedRegion ≠ none := by
  have h := workflow_screen_outcomes (NewPaymentWorkflow none) reqFailover
    (Except.error ()) (by rfl) (by decide)
  exact ⟨h.1.1, h.2.2.1⟩

/-- The result of `handleConnectionAux` does not depend on the fuel once the
fuel is at least the stream length (each iteration consumes at least two
bytes). -/
theorem handleConnectionAux_fuel (unpack : List Nat → Option IsoMsg)
    (handler : IsoMsg → Option IsoMsg) (pack : IsoMsg → Option (List Nat)) :
    ∀ (fuel1 fuel2 : Nat) (s : List Nat), s.length ≤ fuel1 → s.length ≤ fuel2 →
      handleConnectionAux unpack handler pack fuel1 s =
        handleConnectionAux unpack handler pack fuel2 s := by
  intro fuel1
  induction fuel1 with
  | zero =>
      intro fuel2 s h1 h2
      have hs : s = [] := List.eq_nil_of_length_eq_zero (Nat.le_zero.mp h1)
      subst hs
      cases fuel2 <;> rfl
  | succ f ih =>
      intro fuel2 s h1 h2
      match s with
      | [] => cases fuel2 <;> rfl
      | [_] => cases fuel2 <;> rfl
      | b0 :: b1 :: rest =>
          match fuel2 with
          | 0 => exact absurd h2 (by simp)
          | f2 + 1 =>
              simp only [handleConnectionAux]
              by_cases hlt : rest.length < b0 * 256 + b1
              · simp [hlt]
              · simp only [hlt, if_false]
                cases hp : processMessage unpack handler pack (rest.take (b0 * 256 + b1)) with
                | none => rfl
                | some out =>
                    have hd : (rest.drop (b0 * 256 + b1)).length ≤ f := by
                      simp only [List.length_cons] at h1
                      simp [List.length_drop]
                      omega
                    have hd2 : (rest.drop (b0 * 256 + b1)).length ≤ f2 := by
                      simp only [List.length_cons] at h2
                      simp [List.length_drop]
                      omega
                    simp [ih f2 _ hd hd2]

/-- C4 (amended): a frame whose payload fails to unpack — and likewise one
on which the handler errors — makes the connection loop stop with the
error-close flag set, writing no reply for the faulting frame and serving
none of the subsequent frames; only a successfully processed frame yields a
reply and lets the loop continue with the rest of the stream. -/
theorem processing_error_closes_connection (unpack : List Nat → Option IsoMsg)
    (handler : IsoMsg → Option IsoMsg) (pack : IsoMsg → Option (List Nat))
    (body rest : List Nat) (hlen : body.length < 65536) :
    (unpack body = none →
      handleConnection unpack handler pack (packFrame body ++ rest) = ([], true)) ∧
    (∀ m, unpack body = some m → handler m = none →
      handleConnection unpack handler pack (packFrame body ++ rest) = ([], true)) ∧
    (∀ out, processMessage unpack handler pack body = some out →
      handleConnection unpack handler pack (packFrame body ++ rest) =
        (out :: (handleConnection unpack handler pack rest).1,
         (handleConnection unpack handler pack rest).2)) := by
  have harith : body.length / 256 % 256 * 256 + body.length % 256 = body.length := by
    omega
  have hframe : packFrame body ++ rest =
      body.length / 256 % 256 :: body.length % 256 :: (body ++ rest) := by
    simp [packFrame]
  have hmain : ∀ fuel, body.length + rest.length ≤ fuel →
      handleConnectionAux unpack handler pack (fuel + 1)
          (body.length / 256 % 256 :: body.length % 256 :: (body ++ rest)) =
        match processMessage unpack handler pack body with
        | none => ([], true)
        | some out =>
            (out :: (handleConnectionAux unpack handler pack rest.length rest).1,
             (handleConnectionAux unpack handler pack rest.length rest).2) := by
    intro fuel hfuel
    simp only [handleConnectionAux, harith]
    have hnlt : ¬ (body ++ rest).length < body.length := by
      simp [List.length_append]
    rw [if_neg hnlt, List.take_left, List.drop_left]
    cases hp : processMessage unpack handler pack body with
    | none => rfl
    | some out =>
        rw [handleConnectionAux_fuel unpack handler pack fuel rest.length rest
          (by omega) (by omega)]
  have hfuelok : body.length + rest.length ≤ (body ++ rest).length + 1 := by
    rw [List.length_append]
    omega
  refine ⟨?_, ?_, ?_⟩
  · intro hu
    rw [handleConnection, hframe]
    simp only [List.length_cons]
    rw [hmain ((body ++ rest).length + 1) hfuelok]
    simp [processMessage, hu]
  · intro m hu hh
    rw [handleConnection, hframe]
    simp only [List.length_cons]
    rw [hmain ((body ++ rest).length + 1) hfuelok]
    simp [processMessage, hu, hh]
  · intro out hp
    rw [handleConnection, hframe]
    simp only [List.length_cons]
    rw [hmain ((body ++ rest).length + 1) hfuelok, hp]
    rfl

/-- The connection handler instantiated by the server: `HandleMessage` over
`cfgUS` with the approving RPC stub. -/
def demoHandler (m : IsoMsg) : Option IsoMsg :=
  (HandleMessage cfgUS ["us".toList] stUS 1000 false rpcApprove 5 m).1.reply

/-- A four-byte payload, too short for the section 6 envelope: a parse
fault. -/
def badBody : List Nat := "0100".toList.map Char.toNat

/-- A complete 51-byte request-envelope payload. -/
def goodBody : List Nat :=
  ("0100" ++ "4111111111111111   " ++ "000000005000" ++ "0614120000" ++ "000001").toList.map
    Char.toNat

/-- C4 (counterexample): on a connection delivering a malformed frame
followed by a well-formed one, the server writes no reply at all and closes
the connection with the error flag — the well-formed second frame is never
served — although the same well-formed frame alone yields exactly one reply
with no error close.  This refutes the claim that a parse fault is
per-message, leaves the connection open, and always yields a reply frame. -/
theorem parse_fault_not_per_message :
    handleConnection unpackEnvelope demoHandler packEnvelope
      (packFrame badBody ++ packFrame goodBody) = ([], true) ∧
    (handleConnection unpackEnvelope demoHandler packEnvelope (packFrame goodBody)).1.length = 1 ∧
    (handleConnection unpackEnvelope demoHandler packEnvelope (packFrame goodBody)).2 = false := by
  decide

/-- Witness for `processing_error_closes_connection` at the concrete
malformed payload `badBody`. -/
theorem processing_error_closes_connection_witness :
    handleConnection unpackEnvelope demoHandler packEnvelope (packFrame badBody ++ []) =
      ([], true) :=
  (processing_error_closes_connection unpackEnvelope demoHandler packEnvelope badBody []
    (by decide)).1 (by decide)
